import Mathlib

/-!
Verification of the address-routing and connection-caching layer
(`mars/oscar/backends/router.py`, class `Router`).

Shallow embedding conventions:

* Python `dict` objects become association lists (`Dict K V` below) with
  first-match lookup; insertion replaces the first matching entry in place
  (preserving insertion order) and otherwise appends, matching CPython
  dictionary semantics.
* `Router` state is a record; the in-place mutating methods
  (`set_mapping`, `add_router`, `remove_router`) become state transformers.
* `threading.local()` reassignment (which gives every execution context a
  fresh empty cache) is modelled from the viewpoint of a single execution
  context: the cache field is reset to the empty dictionary.
* The transport registry function `get_client_type` and the transport
  client's `connect` coroutine live in `mars/oscar/backends/communication`,
  outside the inspected sources.  Modelled from the spec: `get_client_type`
  is a pure function of the address (it receives `Option String` because the
  source can pass `None`, the value stored for a local address), supplied as
  an explicit parameter `gct`; `connect` either fails (per a failure oracle
  `cfail`, "a failed connect simply fails the acquisition call") or returns
  a fresh client handle carrying the connected address, the caller's own
  address and a `closed` flag that starts out false.  Handle identity
  ("the identical handle object") is modelled by a serial number `cid`
  drawn from a counter `fresh` threaded through the state.
* `async`/exceptions become an `Except` value paired with the post state;
  the `return_from_cache` flag of the source is always-on in the model, so
  every result also reports whether it came from the cache.
* The opaque purpose tag `from_who` is modelled as `Nat`; client type
  descriptors are modelled as `String`.
-/

set_option autoImplicit false

namespace MarsRouter

/-- Association-list dictionaries with CPython `dict` semantics. -/
abbrev Dict (K V : Type) := List (K × V)

/-- `d[k]` / `d.get(k)`: value of the first entry with key `k`. -/
def dlookup {K V : Type} [DecidableEq K] : Dict K V → K → Option V
  | [], _ => none
  | (k₁, v) :: rest, k => if k₁ = k then some v else dlookup rest k

/-- `d[k] = v`: replace the first entry with key `k` in place, else append. -/
def dinsert {K V : Type} [DecidableEq K] : Dict K V → K → V → Dict K V
  | [], k, v => [(k, v)]
  | (k₁, v₁) :: rest, k, v =>
    if k₁ = k then (k, v) :: rest else (k₁, v₁) :: dinsert rest k v

/-- `d.pop(k, None)` / `del d[k]`: drop the entry with key `k`. -/
def derase {K V : Type} [DecidableEq K] (d : Dict K V) (k : K) : Dict K V :=
  d.filter (fun p => p.1 ≠ k)

/-- `d.update(d₂)`: insert every entry of `d₂` in order. -/
def dupdate {K V : Type} [DecidableEq K] (d d₂ : Dict K V) : Dict K V :=
  d₂.foldl (fun acc p => dinsert acc p.1 p.2) d

/-- `list(d)`: the keys of the dictionary. -/
def dkeys {K V : Type} (d : Dict K V) : List K :=
  d.map (fun p => p.1)

/-- Client type descriptors (one per transport scheme). -/
abbrev ClientType := String

/-- Errors an acquisition call can raise: a failed `connect`, or the
`ValueError` of `get_client_via_type` naming the requested type and the
address. -/
inductive AcqError where
  | connError : AcqError
  | unsupportedClientType (client_type : ClientType) (address : String) : AcqError
  deriving DecidableEq, Repr

/-- A transport client handle as produced by `Client.connect`: records the
address it dialed, the caller's own (local) address, the observable `closed`
flag, and a serial number `cid` standing for object identity. -/
structure Client where
  client_type : ClientType
  address : Option String
  local_address : Option String
  closed : Bool
  cid : Nat
  deriving DecidableEq, Repr

/-- Cache keys: `(external_address, from_who, client_type-or-None)`. -/
abbrev CacheKey := String × Nat × Option ClientType

/-- The `Router` state: `_curr_external_addresses`, `_local_mapping`,
`_mapping`, `_comm_config`, the current execution context's `_cache`, and
the freshness counter for handle identities. -/
structure Router where
  curr_external_addresses : List String
  local_mapping : Dict String (Option String)
  mapping : Dict String String
  comm_config : Dict String String
  cache : Dict CacheKey Client
  fresh : Nat
  deriving DecidableEq, Repr

namespace Router

/-- `Router.__init__(external_addresses, local_address, mapping, comm_config)`:
every external address is mapped to `local_address` in `_local_mapping`. -/
def init (external_addresses : List String) (local_address : Option String)
    (mapping : Dict String String) (comm_config : Dict String String) : Router where
  curr_external_addresses := external_addresses
  local_mapping := external_addresses.foldl (fun d a => dinsert d a local_address) []
  mapping := mapping
  comm_config := comm_config
  cache := []
  fresh := 0

/-- `Router.set_mapping`: replace `_mapping`; reassigning
`self._cache_local` empties the per-context cache. -/
def set_mapping (r : Router) (mapping : Dict String String) : Router :=
  { r with mapping := mapping, cache := [] }

/-- `Router.add_router`: extend the external addresses, update the three
dictionaries, empty the cache. -/
def add_router (r other : Router) : Router :=
  { r with
    curr_external_addresses :=
      r.curr_external_addresses ++ other.curr_external_addresses
    local_mapping := dupdate r.local_mapping other.local_mapping
    mapping := dupdate r.mapping other.mapping
    comm_config := dupdate r.comm_config other.comm_config
    cache := [] }

/-- `Router.remove_router`: remove one occurrence of each of the other
router's external addresses (ignoring absent ones), pop each key of the
other's `_local_mapping` and `_mapping`, empty the cache.  `_comm_config`
is not touched. -/
def remove_router (r other : Router) : Router :=
  { r with
    curr_external_addresses :=
      other.curr_external_addresses.foldl (fun l a => l.erase a)
        r.curr_external_addresses
    local_mapping := (dkeys other.local_mapping).foldl derase r.local_mapping
    mapping := (dkeys other.mapping).foldl derase r.mapping
    cache := [] }

/-- `Router.get_internal_address`: `_local_mapping[external_address]` if the
key is present (its value may be `None`), else `_mapping.get(external_address)`. -/
def get_internal_address (r : Router) (external_address : String) : Option String :=
  match dlookup r.local_mapping external_address with
  | some v => v
  | none => dlookup r.mapping external_address

/-- `Router._create_client`: connect `client_type` to `address`, presenting
`_curr_external_addresses[0]` (if any) as the local address.  The failure
oracle `cfail` stands for the transport's `ConnectError`. -/
def _create_client (cfail : ClientType → Option String → Bool) (r : Router)
    (client_type : ClientType) (address : Option String) :
    Except AcqError (Client × Router) :=
  if cfail client_type address then .error .connError
  else
    .ok ({ client_type := client_type, address := address,
           local_address := r.curr_external_addresses.head?,
           closed := false, cid := r.fresh },
         { r with fresh := r.fresh + 1 })

/-- Cache-miss tail of `Router.get_client` (lines 129-140 of the source):
resolve the internal address, fall back to the external address, pick the
client type, connect, and cache the handle when `cached`. -/
def get_client_connect (gct : Option String → ClientType)
    (cfail : ClientType → Option String → Bool) (r : Router)
    (external_address : String) (from_who : Nat) (cached : Bool) :
    Except AcqError (Client × Bool) × Router :=
  let address := (r.get_internal_address external_address).getD external_address
  let client_type := gct (some address)
  match r._create_client cfail client_type (some address) with
  | .error e => (.error e, r)
  | .ok (client, r₁) =>
    (.ok (client, false),
     if cached then
       { r₁ with cache := dinsert r₁.cache (external_address, from_who, none) client }
     else r₁)

/-- `Router.get_client`: on a cache hit return the cached handle unless its
`closed` flag is set, in which case the entry is deleted and a fresh handle
is built; the `Bool` in the result is the source's `return_from_cache`
report. -/
def get_client (gct : Option String → ClientType)
    (cfail : ClientType → Option String → Bool) (r : Router)
    (external_address : String) (from_who : Nat) (cached : Bool) :
    Except AcqError (Client × Bool) × Router :=
  if cached then
    match dlookup r.cache (external_address, from_who, none) with
    | some c =>
      if c.closed then
        get_client_connect gct cfail
          { r with cache := derase r.cache (external_address, from_who, none) }
          external_address from_who cached
      else (.ok (c, true), r)
    | none => get_client_connect gct cfail r external_address from_who cached
  else get_client_connect gct cfail r external_address from_who cached

/-- `Router._get_client_type_to_addresses`: candidate `client_type → address`
pairs for an external address: its own scheme's type, the loopback target's
type when the address is one of `_curr_external_addresses`, and the mapped
target's type when `_mapping` has the address. -/
def _get_client_type_to_addresses (gct : Option String → ClientType)
    (r : Router) (external_address : String) : Dict ClientType (Option String) :=
  let d := dinsert [] (gct (some external_address)) (some external_address)
  let d :=
    if external_address ∈ r.curr_external_addresses then
      let addr := Option.join (dlookup r.local_mapping external_address)
      dinsert d (gct addr) addr
    else d
  if (dlookup r.mapping external_address).isSome then
    let addr := dlookup r.mapping external_address
    dinsert d (gct addr) addr
  else d

/-- `Router.get_all_client_types`. -/
def get_all_client_types (gct : Option String → ClientType)
    (r : Router) (external_address : String) : List ClientType :=
  dkeys (r._get_client_type_to_addresses gct external_address)

/-- Cache-miss tail of `Router.get_client_via_type` (lines 193-205): raise
`ValueError` if the requested type is not a candidate, else connect to the
candidate's address and cache the handle when `cached`. -/
def get_client_via_type_connect (gct : Option String → ClientType)
    (cfail : ClientType → Option String → Bool) (r : Router)
    (external_address : String) (client_type : ClientType)
    (from_who : Nat) (cached : Bool) :
    Except AcqError (Client × Bool) × Router :=
  match dlookup (r._get_client_type_to_addresses gct external_address) client_type with
  | none => (.error (.unsupportedClientType client_type external_address), r)
  | some address =>
    match r._create_client cfail client_type address with
    | .error e => (.error e, r)
    | .ok (client, r₁) =>
      (.ok (client, false),
       if cached then
         { r₁ with
           cache := dinsert r₁.cache (external_address, from_who, some client_type) client }
       else r₁)

/-- `Router.get_client_via_type`: same cache discipline as `get_client` but
keyed additionally by the explicit client type. -/
def get_client_via_type (gct : Option String → ClientType)
    (cfail : ClientType → Option String → Bool) (r : Router)
    (external_address : String) (client_type : ClientType)
    (from_who : Nat) (cached : Bool) :
    Except AcqError (Client × Bool) × Router :=
  if cached then
    match dlookup r.cache (external_address, from_who, some client_type) with
    | some c =>
      if c.closed then
        get_client_via_type_connect gct cfail
          { r with cache := derase r.cache (external_address, from_who, some client_type) }
          external_address client_type from_who cached
      else (.ok (c, true), r)
    | none =>
      get_client_via_type_connect gct cfail r external_address client_type from_who cached
  else get_client_via_type_connect gct cfail r external_address client_type from_who cached

/-- The documented invariant: every key of `_local_mapping` is present in
`_curr_external_addresses`. -/
def routerInv (r : Router) : Prop :=
  ∀ k ∈ dkeys r.local_mapping, k ∈ r.curr_external_addresses

instance (r : Router) : Decidable (routerInv r) := by
  unfold routerInv; infer_instance

end Router

end MarsRouter

namespace MarsRouter

/-! ## Dictionary lemmas -/

theorem dlookup_dinsert_self {K V : Type} [DecidableEq K] (d : Dict K V) (k : K) (v : V) :
    dlookup (dinsert d k v) k = some v := by
  induction d with
  | nil => simp [dinsert, dlookup]
  | cons p rest ih =>
    obtain ⟨k₁, v₁⟩ := p
    by_cases h : k₁ = k <;> simp [dinsert, dlookup, h, ih]

theorem dlookup_dinsert_ne {K V : Type} [DecidableEq K] (d : Dict K V) (k k₂ : K) (v : V)
    (h : k ≠ k₂) : dlookup (dinsert d k v) k₂ = dlookup d k₂ := by
  induction d with
  | nil => simp [dinsert, dlookup, h]
  | cons p rest ih =>
    obtain ⟨k₁, v₁⟩ := p
    by_cases h₁ : k₁ = k <;> simp [dinsert, dlookup, h₁, h, ih]

theorem isSome_dlookup_dinsert {K V : Type} [DecidableEq K] (d : Dict K V) (k k₂ : K) (v : V) :
    (dlookup (dinsert d k v) k₂).isSome ↔ k₂ = k ∨ (dlookup d k₂).isSome := by
  by_cases h : k = k₂
  · subst h; simp [dlookup_dinsert_self]
  · rw [dlookup_dinsert_ne d k k₂ v h]
    constructor
    · exact fun hs => Or.inr hs
    · rintro (h₂ | hs)
      · exact absurd h₂.symm h
      · exact hs

theorem dlookup_derase_self {K V : Type} [DecidableEq K] (d : Dict K V) (k : K) :
    dlookup (derase d k) k = none := by
  induction d with
  | nil => simp [derase, dlookup]
  | cons p rest ih =>
    obtain ⟨k₁, v₁⟩ := p
    by_cases h : k₁ = k <;> simp_all [derase, dlookup, List.filter]

theorem dlookup_derase_ne {K V : Type} [DecidableEq K] (d : Dict K V) (k k₂ : K)
    (h : k ≠ k₂) : dlookup (derase d k) k₂ = dlookup d k₂ := by
  induction d with
  | nil => simp [derase, dlookup]
  | cons p rest ih =>
    obtain ⟨k₁, v₁⟩ := p
    by_cases h₁ : k₁ = k
    · subst h₁; simp_all [derase, dlookup, List.filter, Ne.symm h]
    · by_cases h₂ : k₁ = k₂ <;> simp_all [derase, dlookup, List.filter]

theorem mem_dkeys {K V : Type} [DecidableEq K] (d : Dict K V) (k : K) :
    k ∈ dkeys d ↔ (dlookup d k).isSome := by
  induction d with
  | nil => simp [dkeys, dlookup]
  | cons p rest ih =>
    obtain ⟨k₁, v₁⟩ := p
    by_cases h : k₁ = k
    · subst h; simp [dkeys, dlookup]
    · have hne : k ≠ k₁ := fun hh => h hh.symm
      simp only [dkeys, List.map_cons, List.mem_cons, dlookup, h, if_false]
      rw [or_iff_right hne]
      simpa [dkeys] using ih

theorem dlookup_dupdate_of_none {K V : Type} [DecidableEq K] (d d₂ : Dict K V) (k : K)
    (h : dlookup d₂ k = none) : dlookup (dupdate d d₂) k = dlookup d k := by
  induction d₂ generalizing d with
  | nil => simp [dupdate]
  | cons p rest ih =>
    obtain ⟨k₁, v₁⟩ := p
    simp only [dlookup] at h
    by_cases h₁ : k₁ = k
    · simp [h₁] at h
    · simp only [h₁, if_false] at h
      show dlookup (dupdate (dinsert d k₁ v₁) rest) k = dlookup d k
      rw [ih (dinsert d k₁ v₁) h, dlookup_dinsert_ne d k₁ k v₁ h₁]

theorem isSome_dlookup_dupdate {K V : Type} [DecidableEq K] (d d₂ : Dict K V) (k : K) :
    (dlookup (dupdate d d₂) k).isSome ↔
      (dlookup d k).isSome ∨ (dlookup d₂ k).isSome := by
  induction d₂ generalizing d with
  | nil => simp [dupdate, dlookup]
  | cons p rest ih =>
    obtain ⟨k₁, v₁⟩ := p
    show (dlookup (dupdate (dinsert d k₁ v₁) rest) k).isSome ↔ _
    rw [ih (dinsert d k₁ v₁)]
    rw [isSome_dlookup_dinsert]
    by_cases h : k₁ = k
    · simp [dlookup, h]
    · simp [dlookup, h]
      tauto

theorem dlookup_foldl_derase {K V : Type} [DecidableEq K] (ks : List K) (d : Dict K V)
    (k : K) :
    dlookup (ks.foldl derase d) k = if k ∈ ks then none else dlookup d k := by
  induction ks generalizing d with
  | nil => simp
  | cons a rest ih =>
    simp only [List.foldl_cons]
    rw [ih (derase d a)]
    by_cases ha : k = a
    · subst ha; simp [dlookup_derase_self]
    · rw [dlookup_derase_ne d a k (Ne.symm ha)]
      simp [ha]

theorem dlookup_foldl_dinsert_const {K V : Type} [DecidableEq K] (ks : List K) (v : V)
    (d : Dict K V) (k : K) :
    dlookup (ks.foldl (fun acc a => dinsert acc a v) d) k =
      if k ∈ ks then some v else dlookup d k := by
  induction ks generalizing d with
  | nil => simp
  | cons a rest ih =>
    simp only [List.foldl_cons]
    rw [ih (dinsert d a v)]
    by_cases ha : k ∈ rest
    · simp [ha]
    · by_cases hak : k = a
      · subst hak; simp [ha, dlookup_dinsert_self]
      · rw [dlookup_dinsert_ne d a k v (Ne.symm hak)]
        simp [ha, hak]

theorem count_foldl_erase (rs l : List String) (a : String)
    (h : rs.count a ≤ l.count a) :
    (rs.foldl (fun acc b => acc.erase b) l).count a = l.count a - rs.count a := by
  induction rs generalizing l with
  | nil => simp
  | cons b rest ih =>
    simp only [List.foldl_cons]
    by_cases hba : b = a
    · subst hba
      have hcount : (b :: rest).count b = rest.count b + 1 := by
        simp [List.count_cons]
      have hpos : 1 ≤ l.count b := by omega
      have herase : (l.erase b).count b = l.count b - 1 := by
        rw [List.count_erase]; simp
      have hle : rest.count b ≤ (l.erase b).count b := by omega
      rw [ih (l.erase b) hle, herase, hcount]
      omega
    · have hcount : (b :: rest).count a = rest.count a := by
        simp [List.count_cons, hba]
      have herase : (l.erase b).count a = l.count a :=
        List.count_erase_of_ne (fun hab => hba hab.symm) l
      have hle : rest.count a ≤ (l.erase b).count a := by omega
      rw [ih (l.erase b) hle, herase, hcount]

theorem mem_foldl_erase_of_not_mem (rs l : List String) (a : String)
    (ha : a ∈ l) (hrs : a ∉ rs) : a ∈ rs.foldl (fun acc b => acc.erase b) l := by
  induction rs generalizing l with
  | nil => simpa
  | cons b rest ih =>
    simp only [List.foldl_cons]
    simp only [List.mem_cons, not_or] at hrs
    exact ih (l.erase b) ((List.mem_erase_of_ne hrs.1).2 ha) hrs.2

end MarsRouter

namespace MarsRouter

/-! ## Claim theorems -/

/-- C1: for every `Router` and external address, `get_internal_address`
returns the loopback (`_local_mapping`) value when the address is a key of
the loopback mapping — never the overlay entry — and otherwise returns the
overlay (`_mapping`) lookup, which is `none` when that too is absent. -/
theorem C1_resolve_internal_precedence (r : Router) (ext : String) :
    (∀ v, dlookup r.local_mapping ext = some v → r.get_internal_address ext = v) ∧
    (dlookup r.local_mapping ext = none →
      r.get_internal_address ext = dlookup r.mapping ext) := by
  constructor
  · intro v h
    simp [Router.get_internal_address, h]
  · intro h
    simp [Router.get_internal_address, h]

/-- Witness for C1: spec scenario 1, `Router(["A"], "L")` with no mapping. -/
theorem C1_resolve_internal_precedence_witness :
    (Router.init ["A"] (some "L") [] []).get_internal_address "A" = some "L" ∧
    (Router.init ["A"] (some "L") [] []).get_internal_address "B" = none := by
  constructor
  · exact (C1_resolve_internal_precedence (Router.init ["A"] (some "L") [] []) "A").1
      (some "L") (by decide)
  · exact ((C1_resolve_internal_precedence (Router.init ["A"] (some "L") [] []) "B").2
      (by decide)).trans rfl

/-- C7: `get_internal_address` is a total function (it can only return a
value, never raise), absence of both a loopback and an overlay entry yields
`none`, and `get_client` then connects to the external address itself. -/
theorem C7_absent_mapping_degrades (gct : Option String → ClientType)
    (cfail : ClientType → Option String → Bool) (r : Router) (ext : String) (fw : Nat)
    (h₁ : dlookup r.local_mapping ext = none)
    (h₂ : dlookup r.mapping ext = none)
    (h₃ : dlookup r.cache (ext, fw, none) = none) :
    r.get_internal_address ext = none ∧
    ∀ c b r₁, r.get_client gct cfail ext fw true = (.ok (c, b), r₁) →
      c.address = some ext := by
  have hgia : r.get_internal_address ext = none := by
    simp [Router.get_internal_address, h₁, h₂]
  refine ⟨hgia, ?_⟩
  intro c b r₁ h
  simp only [Router.get_client, if_true, h₃] at h
  simp only [Router.get_client_connect, hgia, Option.getD_none] at h
  by_cases hf : cfail (gct (some ext)) (some ext) = true
  · simp [Router._create_client, hf] at h
  · simp only [Router._create_client, hf, Bool.false_eq_true, if_false,
      Prod.mk.injEq] at h
    obtain ⟨h₄, -⟩ := h
    simp only [Except.ok.injEq, Prod.mk.injEq] at h₄
    rw [← h₄.1]

/-- Witness for C7: an empty router and an unmapped address `"B"`. -/
theorem C7_absent_mapping_degrades_witness :
    (Router.init [] none [] []).get_internal_address "B" = none ∧
    ∀ c b r₁,
      (Router.init [] none [] []).get_client (fun _ => "t") (fun _ _ => false)
        "B" 0 true = (.ok (c, b), r₁) → c.address = some "B" :=
  C7_absent_mapping_degrades (fun _ => "t") (fun _ _ => false)
    (Router.init [] none [] []) "B" 0 (by decide) (by decide) (by decide)

/-- C10: a router constructed with `local_address = None` stores `None` in
the loopback mapping for every own external address, so
`get_internal_address` returns `none` there even when the overlay mapping
has an entry (the overlay entry is shadowed), and `get_client` connects
directly to the external address itself. -/
theorem C10_none_local_shadows_overlay (gct : Option String → ClientType)
    (cfail : ClientType → Option String → Bool) (exts : List String)
    (mapping comm : Dict String String) (a : String) (fw : Nat)
    (ha : a ∈ exts) (hc : cfail (gct (some a)) (some a) = false) :
    dlookup (Router.init exts none mapping comm).local_mapping a = some none ∧
    (Router.init exts none mapping comm).get_internal_address a = none ∧
    ((Router.init exts none mapping comm).get_client gct cfail a fw true).1 =
      .ok ({ client_type := gct (some a), address := some a,
             local_address := exts.head?, closed := false, cid := 0 }, false) := by
  have hlocal : dlookup (Router.init exts none mapping comm).local_mapping a = some none := by
    show dlookup (exts.foldl (fun d x => dinsert d x none) []) a = some none
    rw [dlookup_foldl_dinsert_const]
    simp [ha]
  have hgia : (Router.init exts none mapping comm).get_internal_address a = none := by
    simp [Router.get_internal_address, hlocal]
  refine ⟨hlocal, hgia, ?_⟩
  show ((Router.init exts none mapping comm).get_client gct cfail a fw true).1 = _
  simp only [Router.get_client, if_true]
  have hcache : dlookup (Router.init exts none mapping comm).cache (a, fw, none) = none := rfl
  rw [hcache]
  simp only [Router.get_client_connect, hgia, Option.getD_none,
    Router._create_client, hc, Bool.false_eq_true, if_false]
  rfl

/-- Witness for C10: `Router(["A"], None, {"A": "X"})` — the overlay entry
for `"A"` is shadowed by the `None` loopback value. -/
theorem C10_none_local_shadows_overlay_witness :
    dlookup (Router.init ["A"] none [("A", "X")] []).local_mapping "A" = some none ∧
    (Router.init ["A"] none [("A", "X")] []).get_internal_address "A" = none ∧
    ((Router.init ["A"] none [("A", "X")] []).get_client (fun o => o.getD "?")
        (fun _ _ => false) "A" 0 true).1 =
      .ok ({ client_type := "A", address := some "A",
             local_address := some "A", closed := false, cid := 0 }, false) :=
  C10_none_local_shadows_overlay (fun o => o.getD "?") (fun _ _ => false)
    ["A"] [("A", "X")] [] "A" 0 (by decide) (by decide)

end MarsRouter

namespace MarsRouter

/-! ## Connect-path helper lemmas -/

/-- A failing `connect` makes the cache-miss tail of `get_client` fail and
leave the state untouched. -/
theorem get_client_connect_error (gct : Option String → ClientType)
    (cfail : ClientType → Option String → Bool) (r : Router) (ext : String)
    (fw : Nat) (cached : Bool)
    (hf : cfail (gct (some ((r.get_internal_address ext).getD ext)))
        (some ((r.get_internal_address ext).getD ext)) = true) :
    Router.get_client_connect gct cfail r ext fw cached = (.error .connError, r) := by
  simp [Router.get_client_connect, Router._create_client, hf]

/-- A succeeding `connect` makes the cache-miss tail of `get_client` return
a fresh handle for the resolved address and store it under the default key. -/
theorem get_client_connect_ok (gct : Option String → ClientType)
    (cfail : ClientType → Option String → Bool) (r : Router) (ext : String) (fw : Nat)
    (hok : cfail (gct (some ((r.get_internal_address ext).getD ext)))
        (some ((r.get_internal_address ext).getD ext)) = false) :
    Router.get_client_connect gct cfail r ext fw true =
      (.ok ({ client_type := gct (some ((r.get_internal_address ext).getD ext)),
              address := some ((r.get_internal_address ext).getD ext),
              local_address := r.curr_external_addresses.head?,
              closed := false, cid := r.fresh }, false),
       { r with
         fresh := r.fresh + 1
         cache := dinsert r.cache (ext, fw, none)
           { client_type := gct (some ((r.get_internal_address ext).getD ext)),
             address := some ((r.get_internal_address ext).getD ext),
             local_address := r.curr_external_addresses.head?,
             closed := false, cid := r.fresh } }) := by
  simp [Router.get_client_connect, Router._create_client, hok]

/-- Whenever `get_client` succeeds (with the cache enabled), the returned
handle sits in the cache under the default key and is not closed. -/
theorem get_client_ok_cache (gct : Option String → ClientType)
    (cfail : ClientType → Option String → Bool) (r : Router) (ext : String) (fw : Nat)
    (c : Client) (b : Bool) (r₁ : Router)
    (h : r.get_client gct cfail ext fw true = (.ok (c, b), r₁)) :
    dlookup r₁.cache (ext, fw, none) = some c ∧ c.closed = false := by
  have hconn : ∀ r₀ : Router, ∀ cc : Client, ∀ bb : Bool, ∀ rr : Router,
      Router.get_client_connect gct cfail r₀ ext fw true = (.ok (cc, bb), rr) →
        dlookup rr.cache (ext, fw, none) = some cc ∧ cc.closed = false := by
    intro r₀ cc bb rr hh
    cases hcf : cfail (gct (some ((r₀.get_internal_address ext).getD ext)))
        (some ((r₀.get_internal_address ext).getD ext)) with
    | true =>
      rw [get_client_connect_error gct cfail r₀ ext fw true hcf] at hh
      exact absurd (congrArg Prod.fst hh) (by simp)
    | false =>
      rw [get_client_connect_ok gct cfail r₀ ext fw hcf] at hh
      simp only [Prod.mk.injEq, Except.ok.injEq] at hh
      obtain ⟨⟨hc, -⟩, hr⟩ := hh
      subst hc
      subst hr
      exact ⟨dlookup_dinsert_self _ _ _, rfl⟩
  simp only [Router.get_client, if_true] at h
  split at h
  next c₀ heq =>
    split at h
    next => exact hconn _ c b r₁ h
    next hcl =>
      simp only [Prod.mk.injEq, Except.ok.injEq] at h
      obtain ⟨⟨hc, -⟩, hr⟩ := h
      subst hc
      subst hr
      exact ⟨heq, by simpa using hcl⟩
  next heq => exact hconn r c b r₁ h

end MarsRouter

namespace MarsRouter

/-- C4: two successive `get_client` calls with the cache enabled, no routing
mutation in between and a non-closed first handle return the identical
handle: the second call reports a cache hit and leaves the state (hence the
connection counter) unchanged. -/
theorem C4_cache_reuse (gct : Option String → ClientType)
    (cfail : ClientType → Option String → Bool) (r : Router) (ext : String) (fw : Nat)
    (c : Client) (b : Bool) (r₁ : Router)
    (h : r.get_client gct cfail ext fw true = (.ok (c, b), r₁))
    (hcl : c.closed = false) :
    r₁.get_client gct cfail ext fw true = (.ok (c, true), r₁) := by
  obtain ⟨hcache, -⟩ := get_client_ok_cache gct cfail r ext fw c b r₁ h
  simp [Router.get_client, hcache, hcl]

/-- Witness for C4: spec scenario 2 — `get_client("B")` on an empty router,
then a second call returning the same handle from the cache. -/
theorem C4_cache_reuse_witness :
    Router.get_client (fun _ => "t") (fun _ _ => false)
      { curr_external_addresses := [], local_mapping := [], mapping := [],
        comm_config := [],
        cache := [(("B", 0, none),
          { client_type := "t", address := some "B", local_address := none,
            closed := false, cid := 0 })],
        fresh := 1 } "B" 0 true =
      (.ok ({ client_type := "t", address := some "B", local_address := none,
              closed := false, cid := 0 }, true),
       { curr_external_addresses := [], local_mapping := [], mapping := [],
         comm_config := [],
         cache := [(("B", 0, none),
           { client_type := "t", address := some "B", local_address := none,
             closed := false, cid := 0 })],
         fresh := 1 }) :=
  C4_cache_reuse (fun _ => "t") (fun _ _ => false) (Router.init [] none [] [])
    "B" 0
    { client_type := "t", address := some "B", local_address := none,
      closed := false, cid := 0 }
    false
    { curr_external_addresses := [], local_mapping := [], mapping := [],
      comm_config := [],
      cache := [(("B", 0, none),
        { client_type := "t", address := some "B", local_address := none,
          closed := false, cid := 0 })],
      fresh := 1 }
    (by rfl) (by rfl)

/-- C5: a cached handle whose `closed` flag is set is lazily evicted: the
next `get_client` call with the cache enabled returns a newly constructed,
distinct handle (no error is surfaced), and the cache slot now holds the new
handle instead of the old one. -/
theorem C5_closed_eviction (gct : Option String → ClientType)
    (cfail : ClientType → Option String → Bool) (r : Router) (ext : String) (fw : Nat)
    (c : Client)
    (hc : dlookup r.cache (ext, fw, none) = some c)
    (hclosed : c.closed = true)
    (hfresh : c.cid < r.fresh)
    (hok : cfail (gct (some ((r.get_internal_address ext).getD ext)))
        (some ((r.get_internal_address ext).getD ext)) = false) :
    ∃ c₁ r₁, r.get_client gct cfail ext fw true = (.ok (c₁, false), r₁) ∧
      c₁ ≠ c ∧ c₁.closed = false ∧
      dlookup r₁.cache (ext, fw, none) = some c₁ := by
  have hmain : r.get_client gct cfail ext fw true =
      Router.get_client_connect gct cfail
        { r with cache := derase r.cache (ext, fw, none) } ext fw true := by
    simp [Router.get_client, hc, hclosed]
  have hok₂ : cfail
      (gct (some ((Router.get_internal_address
        { r with cache := derase r.cache (ext, fw, none) } ext).getD ext)))
      (some ((Router.get_internal_address
        { r with cache := derase r.cache (ext, fw, none) } ext).getD ext)) = false := hok
  have hstep := get_client_connect_ok gct cfail
    { r with cache := derase r.cache (ext, fw, none) } ext fw hok₂
  refine ⟨_, _, hmain.trans hstep, ?_, rfl, ?_⟩
  · intro heq
    have hcid : r.fresh = c.cid := congrArg Client.cid heq
    omega
  · exact dlookup_dinsert_self _ _ _

/-- Witness for C5: a router whose cache holds a closed handle for `"B"`;
the call returns a fresh distinct handle and replaces the entry. -/
theorem C5_closed_eviction_witness :
    ∃ c₁ r₁,
      Router.get_client (fun _ => "t") (fun _ _ => false)
        { curr_external_addresses := [], local_mapping := [], mapping := [],
          comm_config := [],
          cache := [(("B", 0, none),
            { client_type := "t", address := some "B", local_address := none,
              closed := true, cid := 0 })],
          fresh := 1 } "B" 0 true = (.ok (c₁, false), r₁) ∧
      c₁ ≠ { client_type := "t", address := some "B", local_address := none,
             closed := true, cid := 0 } ∧
      c₁.closed = false ∧
      dlookup r₁.cache ("B", 0, none) = some c₁ :=
  C5_closed_eviction (fun _ => "t") (fun _ _ => false)
    { curr_external_addresses := [], local_mapping := [], mapping := [],
      comm_config := [],
      cache := [(("B", 0, none),
        { client_type := "t", address := some "B", local_address := none,
          closed := true, cid := 0 })],
      fresh := 1 } "B" 0
    { client_type := "t", address := some "B", local_address := none,
      closed := true, cid := 0 }
    (by rfl) (by rfl) (by decide) (by rfl)

end MarsRouter

namespace MarsRouter

/-- C6: `set_mapping` replaces the overlay mapping, leaves the own addresses
and the loopback mapping unchanged, and empties the per-context cache, so a
subsequent `get_client` re-resolves against the new overlay mapping and
connects to the newly mapped internal address with a fresh handle rather
than any handle cached before the mutation. -/
theorem C6_set_mapping_invalidates (gct : Option String → ClientType)
    (cfail : ClientType → Option String → Bool) (r : Router)
    (m : Dict String String) (ext a : String) (fw : Nat)
    (h₁ : dlookup r.local_mapping ext = none)
    (h₂ : dlookup m ext = some a)
    (h₃ : cfail (gct (some a)) (some a) = false)
    (h₄ : ∀ k c₀, dlookup r.cache k = some c₀ → c₀.cid < r.fresh) :
    (r.set_mapping m).mapping = m ∧
    (r.set_mapping m).curr_external_addresses = r.curr_external_addresses ∧
    (r.set_mapping m).local_mapping = r.local_mapping ∧
    (r.set_mapping m).cache = [] ∧
    ∃ c r₁, (r.set_mapping m).get_client gct cfail ext fw true =
        (.ok (c, false), r₁) ∧
      c.address = some a ∧
      ∀ c₀, dlookup r.cache (ext, fw, none) = some c₀ → c ≠ c₀ := by
  have hgia : (r.set_mapping m).get_internal_address ext = some a := by
    simp [Router.get_internal_address, Router.set_mapping, h₁, h₂]
  refine ⟨rfl, rfl, rfl, rfl, ?_⟩
  have hmain : (r.set_mapping m).get_client gct cfail ext fw true =
      Router.get_client_connect gct cfail (r.set_mapping m) ext fw true := rfl
  have hok : cfail
      (gct (some (((r.set_mapping m).get_internal_address ext).getD ext)))
      (some (((r.set_mapping m).get_internal_address ext).getD ext)) = false := by
    rw [hgia]
    exact h₃
  have hstep := get_client_connect_ok gct cfail (r.set_mapping m) ext fw hok
  refine ⟨_, _, hmain.trans hstep, ?_, ?_⟩
  · show some (((r.set_mapping m).get_internal_address ext).getD ext) = some a
    rw [hgia]
    rfl
  · intro c₀ h₅ heq
    have hcid : (r.set_mapping m).fresh = c₀.cid := congrArg Client.cid heq
    have hlt := h₄ (ext, fw, none) c₀ h₅
    have hfr : (r.set_mapping m).fresh = r.fresh := rfl
    omega

/-- Witness for C6: spec scenario 3 — after `setMapping({"B": "C"})` the
next `get_client("B")` connects to `"C"` with a handle distinct from the one
cached before the mutation. -/
theorem C6_set_mapping_invalidates_witness :
    ((Router.init [] none [] []).set_mapping [("B", "C")]).mapping = [("B", "C")] ∧
    ((Router.init [] none [] []).set_mapping [("B", "C")]).curr_external_addresses =
      (Router.init [] none [] []).curr_external_addresses ∧
    ((Router.init [] none [] []).set_mapping [("B", "C")]).local_mapping =
      (Router.init [] none [] []).local_mapping ∧
    ((Router.init [] none [] []).set_mapping [("B", "C")]).cache = [] ∧
    ∃ c r₁,
      ((Router.init [] none [] []).set_mapping [("B", "C")]).get_client
          (fun o => o.getD "?") (fun _ _ => false) "B" 0 true =
        (.ok (c, false), r₁) ∧
      c.address = some "C" ∧
      ∀ c₀, dlookup (Router.init [] none [] []).cache ("B", 0, none) = some c₀ →
        c ≠ c₀ :=
  C6_set_mapping_invalidates (fun o => o.getD "?") (fun _ _ => false)
    (Router.init [] none [] []) [("B", "C")] "B" "C" 0
    (by decide) (by decide) (by decide) (by intro k c₀ h; cases h)

/-- C8: when the transport's `connect` fails, both `get_client` and
`get_client_via_type` propagate the failure and leave no cache entry for the
requested key (given there was no live cached handle to return, and — for
the typed variant — the requested type is a candidate so that `connect` is
reached). -/
theorem C8_connect_failure_not_cached (gct : Option String → ClientType)
    (cfail : ClientType → Option String → Bool) (r : Router) (ext : String)
    (ct : ClientType) (fw : Nat)
    (hfail : ∀ t a, cfail t a = true)
    (h₁ : ∀ c, dlookup r.cache (ext, fw, none) = some c → c.closed = true)
    (h₂ : ∀ c, dlookup r.cache (ext, fw, some ct) = some c → c.closed = true)
    (h₃ : (dlookup (r._get_client_type_to_addresses gct ext) ct).isSome) :
    ((r.get_client gct cfail ext fw true).1 = .error .connError ∧
      dlookup (r.get_client gct cfail ext fw true).2.cache (ext, fw, none) = none) ∧
    ((r.get_client_via_type gct cfail ext ct fw true).1 = .error .connError ∧
      dlookup (r.get_client_via_type gct cfail ext ct fw true).2.cache
        (ext, fw, some ct) = none) := by
  obtain ⟨addr, haddr⟩ := Option.isSome_iff_exists.mp h₃
  have hvc : ∀ r₀ : Router,
      r₀._get_client_type_to_addresses gct ext =
        r._get_client_type_to_addresses gct ext →
      Router.get_client_via_type_connect gct cfail r₀ ext ct fw true =
        (.error .connError, r₀) := by
    intro r₀ hsame
    simp [Router.get_client_via_type_connect, hsame, haddr,
      Router._create_client, hfail ct addr]
  constructor
  · simp only [Router.get_client, if_true]
    split
    next c₀ heq =>
      rw [if_pos (h₁ c₀ heq),
        get_client_connect_error gct cfail _ ext fw true (hfail _ _)]
      exact ⟨rfl, dlookup_derase_self _ _⟩
    next heq =>
      rw [get_client_connect_error gct cfail r ext fw true (hfail _ _)]
      exact ⟨rfl, heq⟩
  · simp only [Router.get_client_via_type, if_true]
    split
    next c₀ heq =>
      rw [if_pos (h₂ c₀ heq),
        hvc { r with cache := derase r.cache (ext, fw, some ct) } rfl]
      exact ⟨rfl, dlookup_derase_self _ _⟩
    next heq =>
      rw [hvc r rfl]
      exact ⟨rfl, heq⟩

/-- Witness for C8: an always-failing connect oracle on an empty router. -/
theorem C8_connect_failure_not_cached_witness :
    (((Router.init [] none [] []).get_client (fun o => o.getD "?")
        (fun _ _ => true) "B" 0 true).1 = .error .connError ∧
      dlookup ((Router.init [] none [] []).get_client (fun o => o.getD "?")
        (fun _ _ => true) "B" 0 true).2.cache ("B", 0, none) = none) ∧
    (((Router.init [] none [] []).get_client_via_type (fun o => o.getD "?")
        (fun _ _ => true) "B" "B" 0 true).1 = .error .connError ∧
      dlookup ((Router.init [] none [] []).get_client_via_type (fun o => o.getD "?")
        (fun _ _ => true) "B" "B" 0 true).2.cache ("B", 0, some "B") = none) :=
  C8_connect_failure_not_cached (fun o => o.getD "?") (fun _ _ => true)
    (Router.init [] none [] []) "B" "B" 0
    (fun _ _ => rfl) (by intro c h; cases h) (by intro c h; cases h) (by decide)

end MarsRouter

namespace MarsRouter

/-- A failing `connect` makes the cache-miss tail of `get_client_via_type`
fail (once the requested type matched a candidate) and leave the state
untouched. -/
theorem get_client_via_type_connect_error (gct : Option String → ClientType)
    (cfail : ClientType → Option String → Bool) (r : Router) (ext : String)
    (ct : ClientType) (fw : Nat) (cached : Bool) (a : Option String)
    (ha : dlookup (r._get_client_type_to_addresses gct ext) ct = some a)
    (hf : cfail ct a = true) :
    Router.get_client_via_type_connect gct cfail r ext ct fw cached =
      (.error .connError, r) := by
  simp [Router.get_client_via_type_connect, ha, Router._create_client, hf]

/-- A succeeding `connect` makes the cache-miss tail of `get_client_via_type`
return a fresh handle for the matched candidate address and store it under
the typed key. -/
theorem get_client_via_type_connect_ok (gct : Option String → ClientType)
    (cfail : ClientType → Option String → Bool) (r : Router) (ext : String)
    (ct : ClientType) (fw : Nat) (a : Option String)
    (ha : dlookup (r._get_client_type_to_addresses gct ext) ct = some a)
    (hcf : cfail ct a = false) :
    Router.get_client_via_type_connect gct cfail r ext ct fw true =
      (.ok ({ client_type := ct, address := a,
              local_address := r.curr_external_addresses.head?,
              closed := false, cid := r.fresh }, false),
       { r with
         fresh := r.fresh + 1
         cache := dinsert r.cache (ext, fw, some ct)
           { client_type := ct, address := a,
             local_address := r.curr_external_addresses.head?,
             closed := false, cid := r.fresh } }) := by
  simp [Router.get_client_via_type_connect, ha, Router._create_client, hcf]

/-- C2: with no live cached handle under the typed key, `get_client_via_type`
fails with the unsupported-client-type error naming the requested type and
the address exactly when the requested type is not among the candidate types
(the type of the address's own scheme, the loopback target's type when the
address is an own address, and the overlay target's type when the overlay
mapping has the address); when the type is a candidate it connects to that
candidate's specific address. -/
theorem C2_via_type_candidate_set (gct : Option String → ClientType)
    (cfail : ClientType → Option String → Bool) (r : Router) (ext : String)
    (ct : ClientType) (fw : Nat)
    (hnc : ∀ c, dlookup r.cache (ext, fw, some ct) = some c → c.closed = true) :
    (∀ t, (dlookup (r._get_client_type_to_addresses gct ext) t).isSome ↔
       (t = gct (some ext) ∨
        (ext ∈ r.curr_external_addresses ∧
          t = gct (Option.join (dlookup r.local_mapping ext))) ∨
        (∃ v, dlookup r.mapping ext = some v ∧ t = gct (some v)))) ∧
    ((r.get_client_via_type gct cfail ext ct fw true).1 =
        .error (.unsupportedClientType ct ext) ↔
      dlookup (r._get_client_type_to_addresses gct ext) ct = none) ∧
    (∀ a, dlookup (r._get_client_type_to_addresses gct ext) ct = some a →
      cfail ct a = false →
      ∃ r₁, r.get_client_via_type gct cfail ext ct fw true =
        (.ok ({ client_type := ct, address := a,
                local_address := r.curr_external_addresses.head?,
                closed := false, cid := r.fresh }, false), r₁) ∧
        dlookup r₁.cache (ext, fw, some ct) =
          some { client_type := ct, address := a,
                 local_address := r.curr_external_addresses.head?,
                 closed := false, cid := r.fresh }) := by
  have hchar : ∀ t, (dlookup (r._get_client_type_to_addresses gct ext) t).isSome ↔
      (t = gct (some ext) ∨
       (ext ∈ r.curr_external_addresses ∧
         t = gct (Option.join (dlookup r.local_mapping ext))) ∨
       (∃ v, dlookup r.mapping ext = some v ∧ t = gct (some v))) := by
    intro t
    by_cases hmem : ext ∈ r.curr_external_addresses <;>
      cases hmap : dlookup r.mapping ext <;>
        simp [Router._get_client_type_to_addresses, hmem, hmap,
          isSome_dlookup_dinsert, dlookup] <;> tauto
  -- with no live typed cache entry the call reduces to the connect tail
  have hred : ∃ r₀ : Router,
      r.get_client_via_type gct cfail ext ct fw true =
        Router.get_client_via_type_connect gct cfail r₀ ext ct fw true ∧
      r₀._get_client_type_to_addresses gct ext =
        r._get_client_type_to_addresses gct ext ∧
      r₀.curr_external_addresses = r.curr_external_addresses ∧
      r₀.fresh = r.fresh := by
    simp only [Router.get_client_via_type, if_true]
    cases hcache : dlookup r.cache (ext, fw, some ct) with
    | none => exact ⟨r, rfl, rfl, rfl, rfl⟩
    | some c₀ =>
      refine ⟨{ r with cache := derase r.cache (ext, fw, some ct) }, ?_, rfl, rfl, rfl⟩
      simp [hnc c₀ hcache]
  obtain ⟨r₀, hr₀, hsame, hcurr, hfresh⟩ := hred
  refine ⟨hchar, ?_, ?_⟩
  · rw [hr₀]
    cases hcand : dlookup (r._get_client_type_to_addresses gct ext) ct with
    | none =>
      simp [Router.get_client_via_type_connect, hsame, hcand]
    | some a =>
      have hcand₀ : dlookup (r₀._get_client_type_to_addresses gct ext) ct = some a := by
        rw [hsame]; exact hcand
      cases hcf : cfail ct a with
      | true =>
        rw [get_client_via_type_connect_error gct cfail r₀ ext ct fw true a hcand₀ hcf]
        simp
      | false =>
        rw [get_client_via_type_connect_ok gct cfail r₀ ext ct fw a hcand₀ hcf]
        simp
  · intro a ha hcf
    have hcand₀ : dlookup (r₀._get_client_type_to_addresses gct ext) ct = some a := by
      rw [hsame]; exact ha
    rw [hr₀, get_client_via_type_connect_ok gct cfail r₀ ext ct fw a hcand₀ hcf,
      hcurr, hfresh]
    exact ⟨_, rfl, dlookup_dinsert_self _ _ _⟩

end MarsRouter

namespace MarsRouter

/-- Witness for C2: `Router(["A"], "L", {"B": "C"})`; requesting the type of
the mapped address `"C"` for external address `"B"` connects to `"C"`. -/
theorem C2_via_type_candidate_set_witness :
    ∃ r₁,
      (Router.init ["A"] (some "L") [("B", "C")] []).get_client_via_type
          (fun o => o.getD "?") (fun _ _ => false) "B" "C" 0 true =
        (.ok ({ client_type := "C", address := some "C",
                local_address := some "A", closed := false, cid := 0 }, false), r₁) ∧
      dlookup r₁.cache ("B", 0, some "C") =
        some { client_type := "C", address := some "C",
               local_address := some "A", closed := false, cid := 0 } :=
  (C2_via_type_candidate_set (fun o => o.getD "?") (fun _ _ => false)
      (Router.init ["A"] (some "L") [("B", "C")] []) "B" "C" 0
      (by intro c h; cases h)).2.2 (some "C") (by decide) rfl

end MarsRouter

namespace MarsRouter

/-- C3 counterexample: `add_router` then `remove_router` with the same
argument does not restore the original key sets.  With an overlapping
overlay key `"x"` the original entry is popped outright, and `remove_router`
never touches `_comm_config`, so the argument's config key `"k"` stays. -/
theorem C3_add_remove_counterexample :
    (¬ ∀ k, (dlookup (((Router.init ["A"] (some "L") [("x", "1")] []).add_router
          (Router.init ["B"] none [("x", "2")] [("k", "v")])).remove_router
          (Router.init ["B"] none [("x", "2")] [("k", "v")])).mapping k).isSome ↔
        (dlookup (Router.init ["A"] (some "L") [("x", "1")] []).mapping k).isSome) ∧
    (¬ ∀ k, (dlookup (((Router.init ["A"] (some "L") [("x", "1")] []).add_router
          (Router.init ["B"] none [("x", "2")] [("k", "v")])).remove_router
          (Router.init ["B"] none [("x", "2")] [("k", "v")])).comm_config k).isSome ↔
        (dlookup (Router.init ["A"] (some "L") [("x", "1")] []).comm_config k).isSome) := by
  constructor
  · intro h
    exact absurd ((h "x").mpr (by decide)) (by decide)
  · intro h
    exact absurd ((h "k").mp (by decide)) (by decide)

/-- C3 (amended): `add_router` then `remove_router` with the same argument
restores the original `ownAddresses` membership unconditionally (occurrence
counts are preserved exactly), and restores the key sets of the loopback and
overlay mappings provided the argument's keys do not overlap the original
ones; the transport config key set is NOT restored — `remove_router` leaves
`_comm_config` untouched, so it remains the union of the two key sets. -/
theorem C3_add_remove_restores (r other : Router)
    (hl : ∀ k ∈ dkeys r.local_mapping, dlookup other.local_mapping k = none)
    (hm : ∀ k ∈ dkeys r.mapping, dlookup other.mapping k = none) :
    (∀ a, a ∈ ((r.add_router other).remove_router other).curr_external_addresses ↔
       a ∈ r.curr_external_addresses) ∧
    (∀ k, (dlookup ((r.add_router other).remove_router other).local_mapping k).isSome ↔
       (dlookup r.local_mapping k).isSome) ∧
    (∀ k, (dlookup ((r.add_router other).remove_router other).mapping k).isSome ↔
       (dlookup r.mapping k).isSome) ∧
    (∀ k, (dlookup ((r.add_router other).remove_router other).comm_config k).isSome ↔
       ((dlookup r.comm_config k).isSome ∨ (dlookup other.comm_config k).isSome)) := by
  have hcount : ∀ a : String,
      ((r.add_router other).remove_router other).curr_external_addresses.count a =
        r.curr_external_addresses.count a := by
    intro a
    show (other.curr_external_addresses.foldl (fun l x => l.erase x)
        (r.curr_external_addresses ++ other.curr_external_addresses)).count a = _
    have hle : other.curr_external_addresses.count a ≤
        (r.curr_external_addresses ++ other.curr_external_addresses).count a := by
      rw [List.count_append]
      omega
    rw [count_foldl_erase _ _ _ hle, List.count_append]
    omega
  have hdrop : ∀ (dr do₂ : Dict String (Option String)),
      (∀ k ∈ dkeys dr, dlookup do₂ k = none) →
      ∀ k, (dlookup ((dkeys do₂).foldl derase (dupdate dr do₂)) k).isSome ↔
        (dlookup dr k).isSome := by
    intro dr do₂ hdisj k
    rw [dlookup_foldl_derase]
    by_cases hk : k ∈ dkeys do₂
    · simp only [hk, if_true, Option.isSome_none, Bool.false_eq_true, false_iff]
      intro h
      have h₂ := hdisj k ((mem_dkeys _ _).mpr h)
      have h₃ := (mem_dkeys _ _).mp hk
      rw [h₂] at h₃
      simp at h₃
    · simp only [hk, if_false]
      have hnone : dlookup do₂ k = none := by
        rw [← Option.not_isSome_iff_eq_none, ← mem_dkeys]
        exact hk
      rw [dlookup_dupdate_of_none _ _ _ hnone]
  refine ⟨?_, ?_, ?_, ?_⟩
  · intro a
    rw [← List.count_pos_iff, ← List.count_pos_iff, hcount a]
  · exact hdrop r.local_mapping other.local_mapping hl
  · intro k
    have hdrop₂ : ∀ (dr do₂ : Dict String String),
        (∀ j ∈ dkeys dr, dlookup do₂ j = none) →
        ((dlookup ((dkeys do₂).foldl derase (dupdate dr do₂)) k).isSome ↔
          (dlookup dr k).isSome) := by
      intro dr do₂ hdisj
      rw [dlookup_foldl_derase]
      by_cases hk : k ∈ dkeys do₂
      · simp only [hk, if_true, Option.isSome_none, Bool.false_eq_true, false_iff]
        intro h
        have h₂ := hdisj k ((mem_dkeys _ _).mpr h)
        have h₃ := (mem_dkeys _ _).mp hk
        rw [h₂] at h₃
        simp at h₃
      · simp only [hk, if_false]
        have hnone : dlookup do₂ k = none := by
          rw [← Option.not_isSome_iff_eq_none, ← mem_dkeys]
          exact hk
        rw [dlookup_dupdate_of_none _ _ _ hnone]
    exact hdrop₂ r.mapping other.mapping hm
  · intro k
    show (dlookup (dupdate r.comm_config other.comm_config) k).isSome ↔ _
    exact isSome_dlookup_dupdate _ _ _

/-- Witness for C3 (amended): disjoint routers — all key sets restored,
config keys become the union. -/
theorem C3_add_remove_restores_witness :
    (∀ a, a ∈ (((Router.init ["A"] (some "L") [("x", "1")] [("c", "1")]).add_router
        (Router.init ["B"] (some "M") [("y", "2")] [("k", "v")])).remove_router
        (Router.init ["B"] (some "M") [("y", "2")] [("k", "v")])).curr_external_addresses ↔
      a ∈ (Router.init ["A"] (some "L") [("x", "1")] [("c", "1")]).curr_external_addresses) ∧
    (∀ k, (dlookup (((Router.init ["A"] (some "L") [("x", "1")] [("c", "1")]).add_router
        (Router.init ["B"] (some "M") [("y", "2")] [("k", "v")])).remove_router
        (Router.init ["B"] (some "M") [("y", "2")] [("k", "v")])).local_mapping k).isSome ↔
      (dlookup (Router.init ["A"] (some "L") [("x", "1")] [("c", "1")]).local_mapping k).isSome) ∧
    (∀ k, (dlookup (((Router.init ["A"] (some "L") [("x", "1")] [("c", "1")]).add_router
        (Router.init ["B"] (some "M") [("y", "2")] [("k", "v")])).remove_router
        (Router.init ["B"] (some "M") [("y", "2")] [("k", "v")])).mapping k).isSome ↔
      (dlookup (Router.init ["A"] (some "L") [("x", "1")] [("c", "1")]).mapping k).isSome) ∧
    (∀ k, (dlookup (((Router.init ["A"] (some "L") [("x", "1")] [("c", "1")]).add_router
        (Router.init ["B"] (some "M") [("y", "2")] [("k", "v")])).remove_router
        (Router.init ["B"] (some "M") [("y", "2")] [("k", "v")])).comm_config k).isSome ↔
      ((dlookup (Router.init ["A"] (some "L") [("x", "1")] [("c", "1")]).comm_config k).isSome ∨
       (dlookup (Router.init ["B"] (some "M") [("y", "2")] [("k", "v")]).comm_config k).isSome)) :=
  C3_add_remove_restores
    (Router.init ["A"] (some "L") [("x", "1")] [("c", "1")])
    (Router.init ["B"] (some "M") [("y", "2")] [("k", "v")])
    (by decide) (by decide)

end MarsRouter

namespace MarsRouter

/-- C9 counterexample: all four routers are built by the constructor and
mutated only by `add_router`/`remove_router`, and all satisfy the loopback
invariant, yet one more `remove_router` breaks it: the argument router owns
`"A"` without a loopback key for it (its key was popped by an earlier
`remove_router`), so `"A"` is removed from the victim's own addresses while
its loopback entry survives. -/
theorem C9_local_keys_invariant_counterexample :
    Router.routerInv (((Router.init ["A"] (some "L3") [] []).add_router
      (Router.init ["A"] (some "L4") [] [])).remove_router
      (Router.init ["A"] (some "L4") [] [])) ∧
    Router.routerInv (Router.init ["A"] (some "L") [] []) ∧
    ¬ Router.routerInv ((Router.init ["A"] (some "L") [] []).remove_router
      (((Router.init ["A"] (some "L3") [] []).add_router
        (Router.init ["A"] (some "L4") [] [])).remove_router
        (Router.init ["A"] (some "L4") [] []))) := by
  decide

/-- C9 (amended): the loopback-keys-are-own-addresses invariant is
established by the constructor, preserved by `set_mapping`, preserved by
`add_router` when the argument also satisfies it, and preserved by
`remove_router` only under the additional premise that every own address of
the argument is a key of the argument's loopback mapping (as the constructor
establishes but `remove_router` itself can destroy). -/
theorem C9_local_keys_invariant :
    (∀ (exts : List String) (la : Option String) (m cc : Dict String String),
      Router.routerInv (Router.init exts la m cc)) ∧
    (∀ (r : Router) (m : Dict String String),
      r.routerInv → (r.set_mapping m).routerInv) ∧
    (∀ r other : Router,
      r.routerInv → other.routerInv → (r.add_router other).routerInv) ∧
    (∀ r other : Router,
      r.routerInv → other.routerInv →
      (∀ a ∈ other.curr_external_addresses, a ∈ dkeys other.local_mapping) →
      (r.remove_router other).routerInv) := by
  refine ⟨?_, ?_, ?_, ?_⟩
  · intro exts la m cc k hk
    show k ∈ exts
    rw [mem_dkeys] at hk
    have hk₂ : (dlookup (exts.foldl (fun d a => dinsert d a la) []) k).isSome := hk
    rw [dlookup_foldl_dinsert_const exts la [] k] at hk₂
    by_cases hmem : k ∈ exts
    · exact hmem
    · rw [if_neg hmem] at hk₂
      simp [dlookup] at hk₂
  · intro r m hr
    exact hr
  · intro r other hr ho k hk
    rw [mem_dkeys] at hk
    show k ∈ r.curr_external_addresses ++ other.curr_external_addresses
    have hk₂ : (dlookup r.local_mapping k).isSome ∨
        (dlookup other.local_mapping k).isSome :=
      (isSome_dlookup_dupdate _ _ _).mp hk
    rw [List.mem_append]
    rcases hk₂ with hk₂ | hk₂
    · exact Or.inl (hr k ((mem_dkeys _ _).mpr hk₂))
    · exact Or.inr (ho k ((mem_dkeys _ _).mpr hk₂))
  · intro r other hr ho hcover k hk
    rw [mem_dkeys] at hk
    have hk₂ : (dlookup ((dkeys other.local_mapping).foldl derase
        r.local_mapping) k).isSome := hk
    rw [dlookup_foldl_derase (dkeys other.local_mapping) r.local_mapping k] at hk₂
    by_cases hko : k ∈ dkeys other.local_mapping
    · rw [if_pos hko] at hk₂
      simp at hk₂
    · rw [if_neg hko] at hk₂
      have hkr : k ∈ r.curr_external_addresses := hr k ((mem_dkeys _ _).mpr hk₂)
      have hnoto : k ∉ other.curr_external_addresses := fun hmem => hko (hcover k hmem)
      exact mem_foldl_erase_of_not_mem _ _ _ hkr hnoto

/-- Witness for C9 (amended): `remove_router` keeps the invariant when the
argument's own addresses are all loopback keys. -/
theorem C9_local_keys_invariant_witness :
    Router.routerInv ((Router.init ["A"] (some "L") [] []).remove_router
      (Router.init ["A"] (some "M") [] [])) :=
  C9_local_keys_invariant.2.2.2 (Router.init ["A"] (some "L") [] [])
    (Router.init ["A"] (some "M") [] []) (by decide) (by decide) (by decide)

end MarsRouter
